import Mathlib

/-!
Verification of the change-analysis core of bitbucket-pr-analyser.

The source (src/bitbucket-pr-analyser.js) is a userscript that fetches a pull
request's changed files and diffs, runs four heuristic analyzers over the
added lines, and publishes the findings as tasks under a single tracking
comment.  This file is a shallow embedding of that core: the pure analysis
functions become Lean functions over explicit data, and the stateful
comment-creation protocol becomes explicit state passing over a model of the
review system's visible state.
-/

set_option maxRecDepth 10000

namespace PRAnalyser

/-- One line item of a diff segment; the source reads `lineItem.line`. -/
structure LineItem where
  line : String
deriving Repr, DecidableEq

/-- One diff segment: a change kind tag (`ADDED`, `REMOVED`, `CONTEXT`) and
its lines, mirroring `{type, lines}` in the raw diff response. -/
structure Segment where
  type : String
  lines : List LineItem
deriving Repr, DecidableEq

/-- One hunk of a raw diff; the source only reads `hunk.segments`. -/
structure Hunk where
  segments : List Segment
deriving Repr, DecidableEq

/-- One entry of the raw diff response; `hunks` may be absent, which the
source observes as a falsy `diff.hunks`. -/
structure Diff where
  hunks : Option (List Hunk)
deriving Repr, DecidableEq

/-- A changed file as assembled by `fetchChangePaths` and enriched with
segments by `fetchChanges`. -/
structure ChangedFile where
  path : String
  name : String
  extension : String
  segments : List Segment
deriving Repr, DecidableEq

/-- Helper for the substring model: `p` matches `l` position by position from
the head (so `p` is an initial run of `l`). -/
def charsMatchAt : List Char → List Char → Bool
  | [], _ => true
  | _ :: _, [] => false
  | a :: p, b :: l => a == b && charsMatchAt p l

/-- Helper for the substring model: `p` occurs contiguously somewhere in `l`. -/
def charsOccur (p : List Char) : List Char → Bool
  | [] => charsMatchAt p []
  | b :: l => charsMatchAt p (b :: l) || charsOccur p l

/-- Model of JavaScript `s.includes(sub)`: `sub` occurs contiguously in `s`. -/
def strIncludes (s sub : String) : Bool :=
  charsOccur sub.toList s.toList

/-- Model of JavaScript `s.toLowerCase()`: character-wise lower-casing (the
source only lower-cases ASCII SQL text, where this agrees with JavaScript). -/
def strToLowerCase (s : String) : String :=
  String.mk (s.toList.map Char.toLower)

/-- Embedding of `checkPaths` (source lines 82–88).  Both call sites pass a
callback whose only effect is to set a boolean flag to `true`, so the
traversal is embedded as the flag it leaves behind: starting from `false`,
each change whose path includes `pathSubstring` sets it to `true`. -/
def checkPaths (changes : List ChangedFile) (pathSubstring : String) : Bool :=
  changes.foldl
    (fun flag change => if strIncludes change.path pathSubstring then true else flag)
    false

/-- Embedding of `checkLines` (source lines 90–105) as the trace of callback
invocations: the list of lines passed to the callback, in traversal order.
The source skips files whose extension differs from `extension` and segments
whose type is not `ADDED`, and otherwise feeds every `lineItem.line`. -/
def checkLines (changes : List ChangedFile) (extension : String) : List String :=
  changes.flatMap fun change =>
    if change.extension == extension then
      change.segments.flatMap fun segment =>
        if segment.type == "ADDED" then segment.lines.map (fun l => l.line)
        else []
    else []

/-- The finding text pushed by `analyseNumberOfChanges`. -/
def VOLUME_TASK : String :=
  "Significant changes - check if automated tests are required."

/-- Embedding of `analyseNumberOfChanges` (source lines 114–133): two counter
callbacks over `checkLines` for extensions `js` and `java`, one finding when
the combined count exceeds the threshold 100. -/
def analyseNumberOfChanges (changes : List ChangedFile) : List String :=
  let CHANGE_THRESHOLD := 100
  let numLinesJS := (checkLines changes "js").foldl (fun n _ => n + 1) 0
  let numLinesJava := (checkLines changes "java").foldl (fun n _ => n + 1) 0
  if numLinesJS + numLinesJava > CHANGE_THRESHOLD then [VOLUME_TASK] else []

/-- The asymmetry finding text for mssql-only change sets. -/
def MSSQL_ONLY_TASK : String := "MSSQL updated but not Oracle. Check this is ok."

/-- The asymmetry finding text for oracle-only change sets. -/
def ORACLE_ONLY_TASK : String := "Oracle updated but not MSSQL. Check this is ok."

/-- The notify-on-merge finding text. -/
def NOTIFY_DB_TASK : String :=
  "(On merge) Notify the team that there are database changes that need to be applied."

/-- Embedding of `analyseDBScriptSynergy` (source lines 138–163): two path
flags via `checkPaths`, then up to one asymmetry finding and the notify
finding, pushed in source order. -/
def analyseDBScriptSynergy (changes : List ChangedFile) : List String :=
  let containsMssqlChanges := checkPaths changes "/mssql/"
  let containsOracleChanges := checkPaths changes "/oracle/"
  let tasks : List String := []
  let tasks := if containsMssqlChanges && !containsOracleChanges then
      tasks ++ [MSSQL_ONLY_TASK] else tasks
  let tasks := if !containsMssqlChanges && containsOracleChanges then
      tasks ++ [ORACLE_ONLY_TASK] else tasks
  let tasks := if containsMssqlChanges || containsOracleChanges then
      tasks ++ [NOTIFY_DB_TASK] else tasks
  tasks

/-- The missing-drop finding text. -/
def DROP_TASK : String :=
  "Create table but no drop table. Need to update the drop scripts?"

/-- Embedding of `analyseDropScriptsNeeded` (source lines 168–190): two full
scans of the added `sql` lines, lower-casing each line and checking for the
literal substrings, then one finding when a create was added without a drop. -/
def analyseDropScriptsNeeded (changes : List ChangedFile) : List String :=
  let containsCreateTable := (checkLines changes "sql").foldl
    (fun flag line => if strIncludes (strToLowerCase line) "create table" then true else flag)
    false
  let containsDropTable := (checkLines changes "sql").foldl
    (fun flag line => if strIncludes (strToLowerCase line) "drop table" then true else flag)
    false
  if containsCreateTable && !containsDropTable then [DROP_TASK] else []

/-- The dot-equals finding text. -/
def DOT_EQUALS_TASK : String :=
  "Found uses of .equals. Review these to check if StringUtils methods are a more appropriate choice."

/-- Embedding of `analyseUseOfDotEquals` (source lines 196–212): a scan of the
added `java` lines for `.equals` without `StringUtils` on the same line, then
one finding when such a line exists. -/
def analyseUseOfDotEquals (changes : List ChangedFile) : List String :=
  let containsDotEquals := (checkLines changes "java").foldl
    (fun flag line =>
      if strIncludes line ".equals" && !(strIncludes line "StringUtils") then true
      else flag)
    false
  if containsDotEquals then [DOT_EQUALS_TASK] else []

/-- Embedding of `extractSegments` (source lines 49–66): a falsy `diffs`
returns `[]`; otherwise each diff with hunks appends every hunk's segments to
the accumulator in order, and diffs without hunks are skipped. -/
def extractSegments (diffs : Option (List Diff)) : List Segment :=
  match diffs with
  | none => []
  | some ds =>
    ds.foldl
      (fun segments diff =>
        match diff.hunks with
        | none => segments
        | some hunks => hunks.foldl (fun segs hunk => segs ++ hunk.segments) segments)
      []

/-- The segments one diff entry contributes: nothing when it has no hunks,
else its hunks' segments flattened in order.  Used to state what
`extractSegments` computes. -/
def hunkSegments (diff : Diff) : List Segment :=
  match diff.hunks with
  | none => []
  | some hunks => hunks.flatMap fun h => h.segments

/-- The finding list `analyse` (source lines 214–234) assembles before the
reversal: the four analyzers' outputs concatenated in registration order. -/
def analyseTasks (changes : List ChangedFile) : List String :=
  let tasks : List String := []
  let tasks := tasks ++ analyseNumberOfChanges changes
  let tasks := tasks ++ analyseDBScriptSynergy changes
  let tasks := tasks ++ analyseDropScriptsNeeded changes
  let tasks := tasks ++ analyseUseOfDotEquals changes
  tasks

/-- The order in which `analyse` publishes tasks: `tasks.reverse`, walked by a
strictly sequential loop of `addTask` calls. -/
def publishedTasks (changes : List ChangedFile) : List String :=
  (analyseTasks changes).reverse

/-- The `path` object of one entry of the `GET changes` response.  The review
system serialises the full path string into the JSON property named
`toString`, which the source reads as `change.path.toString`; it is modelled
here as the field `toStr`. -/
structure RawPath where
  toStr : String
  name : String
  extension : String
deriving Repr, DecidableEq

/-- One entry of the decoded `GET changes` response. -/
structure RawChange where
  path : RawPath
deriving Repr, DecidableEq

/-- Embedding of `fetchChangePaths` (source lines 27–41) with the network
fetch abstracted into the decoded response `values`: each change becomes a
`ChangedFile` whose path, name and extension are copied from the response
(segments are attached later by `fetchChanges`). -/
def fetchChangePaths (values : List RawChange) : List ChangedFile :=
  values.map fun change =>
    { path := change.path.toStr
      name := change.path.name
      extension := change.path.extension
      segments := [] }

/-- The sentinel text of the tracking comment (source line 240). -/
def PARENT_COMMENT_TEXT : String := "_Auto-generated comment from PR Analyser_"

/-- A comment held by the review system, as exposed through the activity
feed. -/
structure Comment where
  id : Nat
  text : String
deriving Repr, DecidableEq

/-- Model of the review-system state that `addParentComment` and
`getParentComment` interact with: the review's comments in creation order
(the activity feed lists each comment once, oldest first), a fresh-id
counter, and a count of the comment-create (`POST comments`) requests issued
so far. -/
structure ReviewState where
  comments : List Comment
  nextId : Nat
  createRequests : Nat
deriving Repr, DecidableEq

/-- Effect of one `POST comments` request: the review gains one comment with
a fresh id and the given text, and the create-request count rises by one. -/
def postComment (st : ReviewState) (text : String) : ReviewState :=
  { comments := st.comments ++ [{ id := st.nextId, text := text }]
    nextId := st.nextId + 1
    createRequests := st.createRequests + 1 }

/-- Embedding of `getParentComment` (source lines 255–263): fetch the
activity feed and return the first comment whose text equals the sentinel. -/
def getParentComment (st : ReviewState) : Option Comment :=
  st.comments.find? fun c => c.text == PARENT_COMMENT_TEXT

/-- Embedding of `addParentComment` (source lines 242–253): unconditionally
issue one comment-create request, then look the comment up by sentinel text.
Returns the resulting review state and the lookup result. -/
def addParentComment (st : ReviewState) : ReviewState × Option Comment :=
  let st2 := postComment st PARENT_COMMENT_TEXT
  (st2, getParentComment st2)

/-- The per-file projection the line-scanning analyzers read: the lines of
the file's ADDED segments, flattened in order. -/
def addedLines (c : ChangedFile) : List String :=
  (c.segments.filter fun s => s.type == "ADDED").flatMap fun s =>
    s.lines.map fun l => l.line

/-! ### Helper lemmas about the fold patterns of the source -/

/-- A fold that only ever raises a flag to `true` computes the disjunction of
the start value with an existence check. -/
theorem foldl_flag_eq_any {α : Type} (p : α → Bool) (l : List α) (b : Bool) :
    l.foldl (fun flag x => if p x then true else flag) b = (b || l.any p) := by
  induction l generalizing b with
  | nil => simp
  | cons x xs ih =>
    rw [List.foldl_cons, ih, List.any_cons]
    cases hx : p x <;> simp [hx]

/-- A fold that increments a counter once per element computes the length. -/
theorem foldl_count_eq_length {α : Type} (l : List α) (n : Nat) :
    l.foldl (fun m _ => m + 1) n = n + l.length := by
  induction l generalizing n with
  | nil => simp
  | cons x xs ih => simp [List.foldl_cons, ih]; omega

/-- A fold that appends `f x` for each element flattens into the accumulator
followed by the concatenation of the images. -/
theorem foldl_append_eq {α β : Type} (f : α → List β) (l : List α) (acc : List β) :
    l.foldl (fun s x => s ++ f x) acc = acc ++ l.flatMap f := by
  induction l generalizing acc with
  | nil => simp
  | cons x xs ih => simp [List.foldl_cons, ih]

/-- The accumulator loop of `extractSegments` flattens every diff's hunk
segments in order onto the accumulator. -/
theorem extractSegments_foldl (ds : List Diff) (acc : List Segment) :
    ds.foldl
      (fun segments diff =>
        match diff.hunks with
        | none => segments
        | some hunks => hunks.foldl (fun segs hunk => segs ++ hunk.segments) segments)
      acc
    = acc ++ ds.flatMap hunkSegments := by
  induction ds generalizing acc with
  | nil => simp
  | cons d ds ih =>
    rw [List.foldl_cons, ih]
    cases h : d.hunks with
    | none => simp [h, hunkSegments]
    | some hunks =>
      simp [h, hunkSegments, foldl_append_eq]

/-- A conditional flatMap is a flatMap over the filtered list. -/
theorem flatMap_if_eq_filter {α β : Type} (p : α → Bool) (f : α → List β) (l : List α) :
    (l.flatMap fun x => if p x then f x else []) = (l.filter p).flatMap f := by
  induction l with
  | nil => rfl
  | cons x xs ih => cases h : p x <;> simp [List.filter_cons, h, ih]

/-- Flattening the mapped images computes the flatMap. -/
theorem flatMap_eq_flatten_map {α β : Type} (f : α → List β) (l : List α) :
    l.flatMap f = (l.map f).flatten := by
  induction l with
  | nil => rfl
  | cons x xs ih => simp [ih]

/-- The callback trace of `checkLines` is determined by the per-file ADDED
projections of the files with the matching extension. -/
theorem checkLines_eq (changes : List ChangedFile) (extension : String) :
    checkLines changes extension =
      ((changes.filter fun c => c.extension == extension).map addedLines).flatten := by
  have hinner : (fun (change : ChangedFile) =>
      change.segments.flatMap fun segment =>
        if segment.type == "ADDED" then segment.lines.map (fun l => l.line) else [])
      = addedLines := by
    funext change
    rw [flatMap_if_eq_filter]
    rfl
  rw [checkLines, flatMap_if_eq_filter, hinner, flatMap_eq_flatten_map]

/-! ### Concrete fixtures used by the claims -/

/-- A js file with 150 ADDED lines. -/
def jsFile150 : ChangedFile :=
  { path := "/web/src/app.js", name := "app.js", extension := "js"
    segments := [{ type := "ADDED", lines := List.replicate 150 { line := "var x = 1;" } }] }

/-- An mssql-path sql file whose single ADDED line creates a table. -/
def mssqlCreateFile : ChangedFile :=
  { path := "/db/mssql/create_foo.sql", name := "create_foo.sql", extension := "sql"
    segments := [{ type := "ADDED", lines := [{ line := "CREATE TABLE foo (id INT)" }] }] }

/-- An oracle-path file with no segments. -/
def oracleFile : ChangedFile :=
  { path := "/db/oracle/create_foo.sql", name := "create_foo.sql", extension := "sql"
    segments := [] }

/-- A sql file whose single ADDED line drops a table in mixed case. -/
def sqlDropFile : ChangedFile :=
  { path := "/db/drop_foo.sql", name := "drop_foo.sql", extension := "sql"
    segments := [{ type := "ADDED", lines := [{ line := "Drop Table foo" }] }] }

/-- A java file whose single ADDED line calls `.equals` directly. -/
def javaEqualsFile : ChangedFile :=
  { path := "/src/Main.java", name := "Main.java", extension := "java"
    segments := [{ type := "ADDED", lines := [{ line := "if (x.equals(y)) return y;" }] }] }

/-- A java file whose single ADDED line uses StringUtils.equals. -/
def javaStringUtilsFile : ChangedFile :=
  { path := "/src/Util.java", name := "Util.java", extension := "java"
    segments := [{ type := "ADDED", lines := [{ line := "StringUtils.equals(a,b)" }] }] }

/-- The end-to-end change set of the spec's last testable property. -/
def changeSetE2E : List ChangedFile := [jsFile150, mssqlCreateFile, javaEqualsFile]

/-- A js file with 70 ADDED lines. -/
def jsFile70 : ChangedFile :=
  { path := "/web/src/a.js", name := "a.js", extension := "js"
    segments := [{ type := "ADDED", lines := List.replicate 70 { line := "var a;" } }] }

/-- A java file with 31 ADDED lines. -/
def javaFile31 : ChangedFile :=
  { path := "/src/B.java", name := "B.java", extension := "java"
    segments := [{ type := "ADDED", lines := List.replicate 31 { line := "int b;" } }] }

/-- A java file with 30 ADDED lines. -/
def javaFile30 : ChangedFile :=
  { path := "/src/C.java", name := "C.java", extension := "java"
    segments := [{ type := "ADDED", lines := List.replicate 30 { line := "int c;" } }] }

/-- A change set with exactly 101 ADDED js/java lines. -/
def changeSet101 : List ChangedFile := [jsFile70, javaFile31]

/-- A change set with exactly 100 ADDED js/java lines. -/
def changeSet100 : List ChangedFile := [jsFile70, javaFile30]

/-- A raw change whose reported extension is upper-case. -/
def rawUpperJS : RawChange :=
  { path := { toStr := "/web/APP.JS", name := "APP.JS", extension := "JS" } }

/-- A file reported with upper-case extension JS and 101 ADDED lines. -/
def upperJsFile101 : ChangedFile :=
  { path := "/web/APP.JS", name := "APP.JS", extension := "JS"
    segments := [{ type := "ADDED", lines := List.replicate 101 { line := "var x = 1;" } }] }

/-- The same file with the extension lower-cased. -/
def lowerJsFile101 : ChangedFile :=
  { path := "/web/APP.JS", name := "APP.JS", extension := "js"
    segments := [{ type := "ADDED", lines := List.replicate 101 { line := "var x = 1;" } }] }

/-- A java file with one ADDED segment and one REMOVED segment. -/
def javaFileWithRemoved : ChangedFile :=
  { path := "/src/A.java", name := "A.java", extension := "java"
    segments := [{ type := "ADDED", lines := [{ line := "a.equals(b)" }] },
                 { type := "REMOVED", lines := [{ line := "old removed line" }] }] }

/-- The same ADDED content, but with a CONTEXT segment instead. -/
def javaFileWithContext : ChangedFile :=
  { path := "/src/A.java", name := "A.java", extension := "java"
    segments := [{ type := "CONTEXT", lines := [{ line := "surrounding context" }] },
                 { type := "ADDED", lines := [{ line := "a.equals(b)" }] }] }

/-- A review with no comments and no requests issued yet. -/
def emptyReview : ReviewState := { comments := [], nextId := 0, createRequests := 0 }

/-! ### Helper lemmas about the tracking-comment protocol -/

/-- After posting the sentinel text, the sentinel lookup succeeds. -/
theorem getParentComment_postSentinel (st : ReviewState) :
    (getParentComment (postComment st PARENT_COMMENT_TEXT)).isSome = true := by
  unfold getParentComment postComment
  rw [List.find?_append]
  cases hf : st.comments.find? (fun c => c.text == PARENT_COMMENT_TEXT) <;> simp

/-- Posting a further comment does not change which comment the sentinel
lookup returns, once the lookup already succeeds. -/
theorem getParentComment_post_stable (st : ReviewState) (text : String)
    (h : (getParentComment st).isSome = true) :
    getParentComment (postComment st text) = getParentComment st := by
  unfold getParentComment at h
  unfold getParentComment postComment
  rw [List.find?_append]
  cases hf : st.comments.find? (fun c => c.text == PARENT_COMMENT_TEXT) with
  | none => rw [hf] at h; simp at h
  | some c => simp

/-! ### Claim theorems -/

/-- C1 counterexample: starting from a review with no comments, two
sequential calls of `addParentComment` issue two comment-create requests (not
at most one) and leave two comments whose text equals the sentinel (not at
most one). -/
theorem addParentComment_twice_two_creates :
    ¬ (((addParentComment (addParentComment emptyReview).1).1.createRequests ≤ 1) ∨
       (((addParentComment (addParentComment emptyReview).1).1.comments.filter
           fun c => c.text == PARENT_COMMENT_TEXT).length ≤ 1)) := by decide

/-- C1 amended: `addParentComment` unconditionally issues one comment-create
request per call and then looks the tracking comment up by sentinel text, so
two sequential calls issue exactly two create requests; under the modelled
stable feed order, both calls return the same (successful) lookup result, and
hence the same comment id.  The find-else-create discipline lives one level
up: `analyse` is only reachable when `getParentComment` found nothing, and
from such a state one call leaves exactly one sentinel comment. -/
theorem addParentComment_create_then_find :
    (∀ st : ReviewState,
      (addParentComment (addParentComment st).1).1.createRequests = st.createRequests + 2 ∧
      (addParentComment (addParentComment st).1).2 = (addParentComment st).2 ∧
      ((addParentComment st).2).isSome = true) ∧
    (∀ st : ReviewState, getParentComment st = none →
      ((addParentComment st).1.comments.filter
        fun c => c.text == PARENT_COMMENT_TEXT).length = 1) := by
  constructor
  · intro st
    refine ⟨by simp [addParentComment, postComment], ?_, ?_⟩
    · show getParentComment (postComment (postComment st PARENT_COMMENT_TEXT) PARENT_COMMENT_TEXT)
          = getParentComment (postComment st PARENT_COMMENT_TEXT)
      exact getParentComment_post_stable _ _ (getParentComment_postSentinel st)
    · exact getParentComment_postSentinel st
  · intro st h
    have hall : ∀ c ∈ st.comments, ¬ ((c.text == PARENT_COMMENT_TEXT) = true) := by
      intro c hc
      unfold getParentComment at h
      simpa using List.find?_eq_none.mp h c hc
    have hfil : st.comments.filter (fun c => c.text == PARENT_COMMENT_TEXT) = [] :=
      List.filter_eq_nil_iff.mpr hall
    simp [addParentComment, postComment, List.filter_append, hfil]

/-- C1 witness for the amended claim: from the empty review (where the
sentinel lookup finds nothing), one `addParentComment` call leaves exactly
one sentinel comment. -/
theorem addParentComment_create_then_find_witness :
    getParentComment emptyReview = none ∧
    ((addParentComment emptyReview).1.comments.filter
      fun c => c.text == PARENT_COMMENT_TEXT).length = 1 :=
  ⟨by decide, addParentComment_create_then_find.2 emptyReview (by decide)⟩

/-- C2: the orchestrator's pre-reversal finding list is the concatenation of
the four analyzers' outputs in registration order (so its length is the sum
of theirs) and the published order is its exact reverse; on the end-to-end
change set (150 added js lines, a file under /mssql/ and none under /oracle/,
a sql file adding one CREATE TABLE line and no drop, and a java file adding a
.equals call) the pre-reversal findings are exactly
[volume, mssql-asymmetry, notify-db-change, missing-drop, dot-equals]. -/
theorem analyse_concat_and_e2e :
    (∀ changes : List ChangedFile,
      analyseTasks changes =
        analyseNumberOfChanges changes ++ analyseDBScriptSynergy changes ++
          analyseDropScriptsNeeded changes ++ analyseUseOfDotEquals changes ∧
      (analyseTasks changes).length =
        (analyseNumberOfChanges changes).length + (analyseDBScriptSynergy changes).length +
          (analyseDropScriptsNeeded changes).length + (analyseUseOfDotEquals changes).length ∧
      publishedTasks changes = (analyseTasks changes).reverse) ∧
    analyseTasks changeSetE2E =
      [VOLUME_TASK, MSSQL_ONLY_TASK, NOTIFY_DB_TASK, DROP_TASK, DOT_EQUALS_TASK] ∧
    publishedTasks changeSetE2E =
      [DOT_EQUALS_TASK, DROP_TASK, NOTIFY_DB_TASK, MSSQL_ONLY_TASK, VOLUME_TASK] := by
  refine ⟨fun changes => ⟨rfl, ?_, rfl⟩, by decide, by decide⟩
  simp only [analyseTasks, List.nil_append, List.length_append]

/-- C3: `analyseNumberOfChanges` emits exactly one finding when the combined
count of ADDED js and java lines strictly exceeds 100 and none otherwise; a
change set with exactly 101 such lines yields one finding and one with
exactly 100 yields zero. -/
theorem analyseNumberOfChanges_threshold :
    (∀ changes : List ChangedFile,
      analyseNumberOfChanges changes =
        if 100 < (checkLines changes "js").length + (checkLines changes "java").length
        then [VOLUME_TASK] else []) ∧
    (checkLines changeSet101 "js").length + (checkLines changeSet101 "java").length = 101 ∧
    analyseNumberOfChanges changeSet101 = [VOLUME_TASK] ∧
    (checkLines changeSet100 "js").length + (checkLines changeSet100 "java").length = 100 ∧
    analyseNumberOfChanges changeSet100 = [] := by
  refine ⟨fun changes => ?_, by decide, by decide, by decide, by decide⟩
  simp [analyseNumberOfChanges, foldl_count_eq_length]

/-- C4: `analyseDBScriptSynergy` tests each changed file's path for the plain
substrings /mssql/ and /oracle/; an mssql-only change set yields exactly the
asymmetry and notify findings, a change set touching both yields only the
notify finding, and one touching neither yields nothing. -/
theorem analyseDBScriptSynergy_cases :
    (∀ changes : List ChangedFile,
      analyseDBScriptSynergy changes =
        (if (changes.any fun c => strIncludes c.path "/mssql/") &&
            !(changes.any fun c => strIncludes c.path "/oracle/")
         then [MSSQL_ONLY_TASK] else []) ++
        (if !(changes.any fun c => strIncludes c.path "/mssql/") &&
            (changes.any fun c => strIncludes c.path "/oracle/")
         then [ORACLE_ONLY_TASK] else []) ++
        (if (changes.any fun c => strIncludes c.path "/mssql/") ||
            (changes.any fun c => strIncludes c.path "/oracle/")
         then [NOTIFY_DB_TASK] else [])) ∧
    analyseDBScriptSynergy [mssqlCreateFile] = [MSSQL_ONLY_TASK, NOTIFY_DB_TASK] ∧
    analyseDBScriptSynergy [mssqlCreateFile, oracleFile] = [NOTIFY_DB_TASK] ∧
    analyseDBScriptSynergy [jsFile150] = [] := by
  refine ⟨fun changes => ?_, by decide, by decide, by decide⟩
  simp only [analyseDBScriptSynergy, checkPaths, foldl_flag_eq_any, Bool.false_or]
  cases hm : changes.any (fun c => strIncludes c.path "/mssql/") <;>
    cases ho : changes.any (fun c => strIncludes c.path "/oracle/") <;>
      simp [hm, ho]

/-- C5: `analyseDropScriptsNeeded` scans the ADDED sql lines case-
insensitively and emits exactly one finding when some line contains a
create-table and no line contains a drop-table; a lone added CREATE TABLE
line yields one finding, and a mixed-case Drop Table line suppresses it. -/
theorem analyseDropScriptsNeeded_cases :
    (∀ changes : List ChangedFile,
      analyseDropScriptsNeeded changes =
        if ((checkLines changes "sql").any fun line =>
              strIncludes (strToLowerCase line) "create table") &&
           !((checkLines changes "sql").any fun line =>
              strIncludes (strToLowerCase line) "drop table")
        then [DROP_TASK] else []) ∧
    analyseDropScriptsNeeded [mssqlCreateFile] = [DROP_TASK] ∧
    analyseDropScriptsNeeded [mssqlCreateFile, sqlDropFile] = [] := by
  refine ⟨fun changes => ?_, by decide, by decide⟩
  simp only [analyseDropScriptsNeeded, foldl_flag_eq_any, Bool.false_or]

/-- C6: `analyseUseOfDotEquals` emits exactly one finding precisely when some
ADDED java line contains .equals without StringUtils on the same line; an
added a.equals(b) line yields the finding, an added StringUtils.equals(a,b)
line does not. -/
theorem analyseUseOfDotEquals_cases :
    (∀ changes : List ChangedFile,
      analyseUseOfDotEquals changes =
        if (checkLines changes "java").any (fun line =>
             strIncludes line ".equals" && !(strIncludes line "StringUtils"))
        then [DOT_EQUALS_TASK] else []) ∧
    analyseUseOfDotEquals [javaEqualsFile] = [DOT_EQUALS_TASK] ∧
    analyseUseOfDotEquals [javaStringUtilsFile] = [] := by
  refine ⟨fun changes => ?_, by decide, by decide⟩
  simp only [analyseUseOfDotEquals, foldl_flag_eq_any, Bool.false_or]

/-- C7: `extractSegments` returns the empty sequence for an absent or empty
raw diff, a diff entry without hunks contributes nothing, and otherwise the
result is the segments of all hunks flattened in source order (each segment
keeps its lines in order and its change kind). -/
theorem extractSegments_flatten_spec :
    extractSegments none = [] ∧
    extractSegments (some []) = [] ∧
    hunkSegments { hunks := none } = [] ∧
    ∀ ds : List Diff, extractSegments (some ds) = ds.flatMap hunkSegments := by
  refine ⟨rfl, rfl, rfl, fun ds => ?_⟩
  show ds.foldl _ [] = _
  rw [extractSegments_foldl]
  simp

/-- C9: the line-scanning analyzers read exactly the ADDED lines of files
with the matching extension: two change sets that agree on the per-file ADDED
projections of their js, java and sql files (however their REMOVED and
CONTEXT segments differ) get identical outputs from the volume, drop-script
and dot-equals analyzers. -/
theorem analysers_read_only_added_lines (cs1 cs2 : List ChangedFile)
    (hjs : (cs1.filter fun c => c.extension == "js").map addedLines
         = (cs2.filter fun c => c.extension == "js").map addedLines)
    (hjava : (cs1.filter fun c => c.extension == "java").map addedLines
           = (cs2.filter fun c => c.extension == "java").map addedLines)
    (hsql : (cs1.filter fun c => c.extension == "sql").map addedLines
          = (cs2.filter fun c => c.extension == "sql").map addedLines) :
    analyseNumberOfChanges cs1 = analyseNumberOfChanges cs2 ∧
    analyseDropScriptsNeeded cs1 = analyseDropScriptsNeeded cs2 ∧
    analyseUseOfDotEquals cs1 = analyseUseOfDotEquals cs2 := by
  have hjs2 : checkLines cs1 "js" = checkLines cs2 "js" := by
    rw [checkLines_eq, checkLines_eq, hjs]
  have hjava2 : checkLines cs1 "java" = checkLines cs2 "java" := by
    rw [checkLines_eq, checkLines_eq, hjava]
  have hsql2 : checkLines cs1 "sql" = checkLines cs2 "sql" := by
    rw [checkLines_eq, checkLines_eq, hsql]
  refine ⟨?_, ?_, ?_⟩
  · simp only [analyseNumberOfChanges, hjs2, hjava2]
  · simp only [analyseDropScriptsNeeded, hsql2]
  · simp only [analyseUseOfDotEquals, hjava2]

/-- C9 witness: a java file with an ADDED segment plus a REMOVED segment, and
the same ADDED segment next to a CONTEXT segment instead, get identical
outputs from the three line-scanning analyzers. -/
theorem analysers_read_only_added_lines_witness :
    analyseNumberOfChanges [javaFileWithRemoved] = analyseNumberOfChanges [javaFileWithContext] ∧
    analyseDropScriptsNeeded [javaFileWithRemoved] = analyseDropScriptsNeeded [javaFileWithContext] ∧
    analyseUseOfDotEquals [javaFileWithRemoved] = analyseUseOfDotEquals [javaFileWithContext] :=
  analysers_read_only_added_lines [javaFileWithRemoved] [javaFileWithContext]
    (by decide) (by decide) (by decide)

/-- C10: every analyzer's output is bounded — at most one finding each for
the volume, drop-script and dot-equals analyzers, at most two for the
database-synergy analyzer — so a single run publishes at most five tasks. -/
theorem analyse_findings_bounded :
    ∀ changes : List ChangedFile,
      (analyseNumberOfChanges changes).length ≤ 1 ∧
      (analyseDBScriptSynergy changes).length ≤ 2 ∧
      (analyseDropScriptsNeeded changes).length ≤ 1 ∧
      (analyseUseOfDotEquals changes).length ≤ 1 ∧
      (publishedTasks changes).length ≤ 5 := by
  intro changes
  have h1 : (analyseNumberOfChanges changes).length ≤ 1 := by
    unfold analyseNumberOfChanges
    dsimp only
    split <;> simp
  have h2 : (analyseDBScriptSynergy changes).length ≤ 2 := by
    cases hm : checkPaths changes "/mssql/" <;>
      cases ho : checkPaths changes "/oracle/" <;>
        simp [analyseDBScriptSynergy, hm, ho]
  have h3 : (analyseDropScriptsNeeded changes).length ≤ 1 := by
    unfold analyseDropScriptsNeeded
    dsimp only
    split <;> simp
  have h4 : (analyseUseOfDotEquals changes).length ≤ 1 := by
    unfold analyseUseOfDotEquals
    dsimp only
    split <;> simp
  have h5 : (publishedTasks changes).length ≤ 5 := by
    have hlen : (analyseTasks changes).length =
        (analyseNumberOfChanges changes).length + (analyseDBScriptSynergy changes).length +
          (analyseDropScriptsNeeded changes).length + (analyseUseOfDotEquals changes).length := by
      simp only [analyseTasks, List.nil_append, List.length_append]
    unfold publishedTasks
    rw [List.length_reverse, hlen]
    omega
  exact ⟨h1, h2, h3, h4, h5⟩

/-- C8 counterexample: normalization copies the reported extension verbatim,
so a change reported with extension JS keeps the upper-case extension, and a
file with extension JS and 101 ADDED lines produces no volume finding — the
analyzers do not match such files. -/
theorem fetchChangePaths_no_lowercase :
    (fetchChangePaths [rawUpperJS]).map (fun c => c.extension) = ["JS"] ∧
    ¬ ((fetchChangePaths [rawUpperJS]).map (fun c => c.extension) = ["js"]) ∧
    analyseNumberOfChanges [upperJsFile101] = [] := by decide

/-- C8 amended: normalization does not lower-case — `fetchChangePaths` copies
the extension verbatim from the response — and the analyzers' case-sensitive
comparisons scan only files whose stored extension is exactly the compared
string, so a file reported with extension JS and 101 added lines is skipped
while the identical file with extension js produces the volume finding. -/
theorem fetchChangePaths_extension_verbatim :
    (∀ values : List RawChange,
      (fetchChangePaths values).map (fun c => c.extension) =
        values.map (fun v => v.path.extension)) ∧
    (∀ (changes : List ChangedFile) (ext : String),
      checkLines changes ext =
        checkLines (changes.filter fun c => c.extension == ext) ext) ∧
    analyseNumberOfChanges [upperJsFile101] = [] ∧
    analyseNumberOfChanges [lowerJsFile101] = [VOLUME_TASK] := by
  refine ⟨fun values => ?_, fun changes ext => ?_, by decide, by decide⟩
  · simp [fetchChangePaths]
  · rw [checkLines_eq, checkLines_eq, List.filter_filter]
    simp

end PRAnalyser
